import Mathlib

/-!
Verification of the resilience-and-deduplication control layer of the
aws-manga-library repository: Lean models of
`scraper/src/processors/duplicate_detector.py`,
`scraper/src/utils/retry_handler.py` and
`scraper/src/utils/rate_limiter.py`, together with theorems settling the
specified behaviour of each component.

Modelling conventions: Python `set` becomes `Finset`, `dict`/`defaultdict`
becomes an insertion-ordered association list, Python `float` time and rate
arithmetic becomes `ℚ` (exact real-number idealisation), machine integers
become `Nat`/`Int`, `None` becomes `Option.none`, and raised exceptions
become explicit result values.
-/

namespace MangaLib

/-! ## duplicate_detector.py: hex strings and Hamming distance

`DuplicateDetector._hamming_distance` decodes the two hash strings with
`int(s, 16)` and counts the set bits of their xor; mismatched lengths or a
`ValueError` yield `float('inf')`.  The embedding returns `none` for the
infinite distance, and models `int(s, 16)` on its main domain: non-empty
strings of hex digits (the exotic accepted forms — signs, whitespace,
underscores, an `0x` marker — are outside the hash formats in play). -/

def isHexDigitChar (c : Char) : Bool :=
  c.isDigit || (97 ≤ c.toNat && c.toNat ≤ 102) || (65 ≤ c.toNat && c.toNat ≤ 70)

def hexDigitVal (c : Char) : Nat :=
  if c.isDigit then c.toNat - 48
  else if 97 ≤ c.toNat && c.toNat ≤ 102 then c.toNat - 97 + 10
  else c.toNat - 65 + 10

def isHexStr (s : String) : Bool :=
  !s.isEmpty && s.toList.all isHexDigitChar

def hexVal (s : String) : Nat :=
  s.toList.foldl (fun a c => 16 * a + hexDigitVal c) 0

/-- Fuel-bounded binary digit sum; with fuel ≥ n it counts all set bits of n
(n has at most n binary digits), so `countSetBits` below is total and
kernel-reducible. -/
def countSetBitsAux : Nat → Nat → Nat
  | 0, _ => 0
  | fuel + 1, n => if n = 0 then 0 else n % 2 + countSetBitsAux fuel (n / 2)

/-- Model of `bin(xor).count('1')`: the number of set bits of a natural. -/
def countSetBits (n : Nat) : Nat := countSetBitsAux n n

/-- Model of `DuplicateDetector._hamming_distance`; `none` stands for the
`float('inf')` returned on mismatched lengths or undecodable input. -/
def hamming_distance (hash1 hash2 : String) : Option Nat :=
  if hash1.length ≠ hash2.length then none
  else if isHexStr hash1 && isHexStr hash2 then
    some (countSetBits (Nat.xor (hexVal hash1) (hexVal hash2)))
  else none

/-- Comparison `distance <= similarity_threshold` with `none` as infinity. -/
def distWithin (d : Option Nat) (threshold : Nat) : Bool :=
  match d with
  | none => false
  | some k => k ≤ threshold

/-! ## duplicate_detector.py: detector state and operations -/

structure DuplicateDetector where
  exact_hashes : Finset String
  perceptual_hashes : List (String × List String)
  enable_perceptual_hashing : Bool
  duplicate_count : Nat
  total_checked : Nat
deriving DecidableEq

/-- Model of `DuplicateDetector.__init__`. -/
def mkDetector (enable_perceptual_hashing : Bool) : DuplicateDetector :=
  { exact_hashes := ∅
    perceptual_hashes := []
    enable_perceptual_hashing := enable_perceptual_hashing
    duplicate_count := 0
    total_checked := 0 }

/-- Python truthiness of the optional `perceptual_hash` argument: `None` and
the empty string are falsy. -/
def truthyOptStr : Option String → Bool
  | none => false
  | some s => !s.isEmpty

/-- Model of `self.perceptual_hashes[key].append(value)` on a `defaultdict`:
append to an existing bucket, or create the bucket at the end (Python dicts
preserve insertion order). -/
def bucketAdd (buckets : List (String × List String)) (key value : String) :
    List (String × List String) :=
  if buckets.any (fun kv => kv.1 = key) then
    buckets.map (fun kv => if kv.1 = key then (kv.1, kv.2 ++ [value]) else kv)
  else buckets ++ [(key, [value])]

/-- Model of `DuplicateDetector.add_hash`. -/
def add_hash (d : DuplicateDetector) (exact_hash : String)
    (perceptual_hash : Option String) : DuplicateDetector :=
  let d1 := { d with exact_hashes := insert exact_hash d.exact_hashes }
  if d1.enable_perceptual_hashing && truthyOptStr perceptual_hash then
    { d1 with perceptual_hashes :=
        bucketAdd d1.perceptual_hashes (perceptual_hash.getD "") exact_hash }
  else d1

/-- Model of `DuplicateDetector.is_duplicate`.  The Python loop over
`perceptual_hashes.items()` increments `duplicate_count` and returns `True`
at the first bucket key within the threshold; observably that is `List.any`
over the bucket keys plus one increment. -/
def is_duplicate (d : DuplicateDetector) (exact_hash : String)
    (perceptual_hash : Option String) (similarity_threshold : Nat) :
    Bool × DuplicateDetector :=
  let d1 := { d with total_checked := d.total_checked + 1 }
  if exact_hash ∈ d1.exact_hashes then
    (true, { d1 with duplicate_count := d1.duplicate_count + 1 })
  else if d1.enable_perceptual_hashing && truthyOptStr perceptual_hash
      && !d1.perceptual_hashes.isEmpty then
    if d1.perceptual_hashes.any (fun kv =>
        distWithin (hamming_distance (perceptual_hash.getD "") kv.1)
          similarity_threshold) then
      (true, { d1 with duplicate_count := d1.duplicate_count + 1 })
    else (false, d1)
  else (false, d1)

/-- Model of `DuplicateDetector.check_and_add`. -/
def check_and_add (d : DuplicateDetector) (exact_hash : String)
    (perceptual_hash : Option String) (similarity_threshold : Nat) :
    Bool × DuplicateDetector :=
  match is_duplicate d exact_hash perceptual_hash similarity_threshold with
  | (true, d1) => (true, d1)
  | (false, d1) => (false, add_hash d1 exact_hash perceptual_hash)

/-! ## duplicate_detector.py: statistics and export/import -/

/-- Round-half-to-even on ℚ, the convention of Python `round`; the embedding
treats the Python float percentage as exact rational arithmetic. -/
def roundHalfEven (q : ℚ) : ℤ :=
  if q - ⌊q⌋ < 1/2 then ⌊q⌋
  else if 1/2 < q - ⌊q⌋ then ⌊q⌋ + 1
  else if ⌊q⌋ % 2 = 0 then ⌊q⌋ else ⌊q⌋ + 1

/-- Model of Python `round(x, 2)`. -/
def round2 (q : ℚ) : ℚ := (roundHalfEven (q * 100) : ℚ) / 100

structure DetectorStats where
  total_unique_hashes : Nat
  total_perceptual_hashes : Nat
  duplicate_count : Nat
  total_checked : Nat
  duplicate_rate : ℚ

/-- Model of `DuplicateDetector.get_statistics`; note the source reports
`duplicate_rate` as a percentage, `round(duplicate_count / total_checked
* 100, 2)`, and `0.0` when nothing was checked. -/
def get_statistics (d : DuplicateDetector) : DetectorStats :=
  { total_unique_hashes := d.exact_hashes.card
    total_perceptual_hashes := d.perceptual_hashes.length
    duplicate_count := d.duplicate_count
    total_checked := d.total_checked
    duplicate_rate :=
      if 0 < d.total_checked then
        round2 ((d.duplicate_count : ℚ) / (d.total_checked : ℚ) * 100)
      else 0 }

structure ExportData where
  exact_hashes : List String
  perceptual_hashes : List (String × List String)
  statistics : DetectorStats

/-- Model of `DuplicateDetector.export_hashes`; `list(self.exact_hashes)`
enumerates the set in an unspecified order, modelled as the sorted
enumeration of the `Finset`. -/
def export_hashes (d : DuplicateDetector) : ExportData :=
  { exact_hashes := d.exact_hashes.sort (· ≤ ·)
    perceptual_hashes := d.perceptual_hashes
    statistics := get_statistics d }

/-- Model of `DuplicateDetector.import_hashes`: replaces the two hash
collections, leaving the counters (and the perceptual-hashing flag) of the
receiving detector untouched. -/
def import_hashes (d : DuplicateDetector) (data : ExportData) :
    DuplicateDetector :=
  { d with exact_hashes := data.exact_hashes.toFinset
           perceptual_hashes := data.perceptual_hashes }

/-! ## retry_handler.py: RetryHandler.execute_with_retry

The operation is modelled as a map from the 0-based attempt index to an
`Except` outcome, generic in the error type ε and result type α; the
configured `retryable_exceptions` tuple (`None` = retry everything) becomes
an optional predicate on ε.  The outcome records the final result (`none`
for the unreachable `raise None` when `max_retries = 0`), how many times
the operation was invoked, how many backoff sleeps happened, and the
cumulative statistics counters. -/

structure RetryStats where
  total_attempts : Nat
  total_retries : Nat
  total_failures : Nat

structure RetryOutcome (ε α : Type) where
  result : Option (Except ε α)
  invocations : Nat
  sleeps : Nat
  stats : RetryStats

/-- Model of `RetryHandler._is_retryable`. -/
def is_retryable {ε : Type} (retryable_exceptions : Option (ε → Bool))
    (e : ε) : Bool :=
  match retryable_exceptions with
  | none => true
  | some p => p e

/-- Model of the `for attempt in range(self.max_retries)` loop of
`RetryHandler.execute_with_retry`; `remaining` counts the loop iterations
left (`attempt + remaining = max_retries` at every entry), and
`max_retries - 1 ≤ attempt` is the source's last-attempt test
`attempt >= self.max_retries - 1` (for `attempt ≥ 0` truncated `Nat`
subtraction agrees with Python's `-1` when `max_retries = 0`). -/
def retryLoop {ε α : Type} (max_retries : Nat)
    (retryable_exceptions : Option (ε → Bool)) (func : Nat → Except ε α)
    (attempt : Nat) (remaining : Nat) (st : RetryStats) (inv slp : Nat) :
    RetryOutcome ε α :=
  match remaining with
  | 0 => ⟨none, inv, slp, st⟩
  | rem + 1 =>
    let st1 : RetryStats := { st with total_attempts := st.total_attempts + 1 }
    match func attempt with
    | Except.ok r => ⟨some (Except.ok r), inv + 1, slp, st1⟩
    | Except.error e =>
      if ¬ is_retryable retryable_exceptions e then
        ⟨some (Except.error e), inv + 1, slp, st1⟩
      else if max_retries - 1 ≤ attempt then
        ⟨some (Except.error e), inv + 1, slp,
          { st1 with total_failures := st1.total_failures + 1 }⟩
      else
        retryLoop max_retries retryable_exceptions func (attempt + 1) rem
          { st1 with total_retries := st1.total_retries + 1 } (inv + 1) (slp + 1)

/-- Model of `RetryHandler.execute_with_retry`, starting from the handler's
current statistics counters `st`. -/
def execute_with_retry {ε α : Type} (max_retries : Nat)
    (retryable_exceptions : Option (ε → Bool)) (st : RetryStats)
    (func : Nat → Except ε α) : RetryOutcome ε α :=
  retryLoop max_retries retryable_exceptions func 0 max_retries st 0 0

/-! ## retry_handler.py: CircuitBreaker

Wall-clock time is an explicit ℚ argument to `call`; the supplied operation
is modelled by its outcome (success, a failure of the configured
`expected_exception` type, or a failure outside it, which the `except`
clause does not catch). -/

inductive CBState where
  | CLOSED
  | OPEN
  | HALF_OPEN
deriving DecidableEq

inductive OpOutcome where
  | success
  | expectedFailure
  | unexpectedFailure
deriving DecidableEq

inductive CBCallResult where
  | circuitOpenError
  | returned
  | raisedExpected
  | raisedUnexpected
deriving DecidableEq

structure CircuitBreaker where
  failure_threshold : Nat
  recovery_timeout : ℚ
  failure_count : Nat
  last_failure_time : Option ℚ
  state : CBState

/-- Model of `CircuitBreaker.__init__`. -/
def mkCircuitBreaker (failure_threshold : Nat) (recovery_timeout : ℚ) :
    CircuitBreaker :=
  { failure_threshold := failure_threshold
    recovery_timeout := recovery_timeout
    failure_count := 0
    last_failure_time := none
    state := CBState.CLOSED }

/-- Model of `CircuitBreaker._should_attempt_reset`. -/
def should_attempt_reset (cb : CircuitBreaker) (now : ℚ) : Bool :=
  match cb.last_failure_time with
  | none => false
  | some t => cb.recovery_timeout ≤ now - t

/-- Model of `CircuitBreaker._record_failure`. -/
def record_failure (cb : CircuitBreaker) (now : ℚ) : CircuitBreaker :=
  let fc := cb.failure_count + 1
  { cb with failure_count := fc
            last_failure_time := some now
            state := if cb.failure_threshold ≤ fc then CBState.OPEN else cb.state }

/-- Model of `CircuitBreaker._reset`. -/
def cbReset (cb : CircuitBreaker) : CircuitBreaker :=
  { cb with failure_count := 0
            state := CBState.CLOSED
            last_failure_time := none }

/-- Model of `CircuitBreaker.call` at time `now`; returns the call result,
whether the protected operation was invoked, and the breaker's new state. -/
def CircuitBreaker.call (cb : CircuitBreaker) (now : ℚ) (op : OpOutcome) :
    CBCallResult × Bool × CircuitBreaker :=
  let runOp := fun (cb1 : CircuitBreaker) =>
    match op with
    | OpOutcome.success =>
      (CBCallResult.returned, true,
        if cb1.state = CBState.HALF_OPEN then cbReset cb1 else cb1)
    | OpOutcome.expectedFailure =>
      (CBCallResult.raisedExpected, true, record_failure cb1 now)
    | OpOutcome.unexpectedFailure =>
      (CBCallResult.raisedUnexpected, true, cb1)
  if cb.state = CBState.OPEN then
    if should_attempt_reset cb now then
      runOp { cb with state := CBState.HALF_OPEN }
    else (CBCallResult.circuitOpenError, false, cb)
  else runOp cb

/-! ## rate_limiter.py: token-bucket variant of RateLimiter.wait_with_token_bucket

Only the fields the token-bucket path touches are modelled; the bucket is
initialised eagerly (`tokens = burst_size` full, as on the lazy first call).
`time.sleep` is idealised as exact: after sleeping in the empty-bucket
branch, `time.time()` reads `current_time + wait_time`. -/

structure RateLimiterTB where
  requests_per_second : ℚ
  base_delay : ℚ
  burst_size : Nat
  tokens : ℚ
  last_refill_time : ℚ

/-- Token bucket as materialised on the first call: full at `burst_size`. -/
def mkRateLimiterTB (requests_per_second base_delay : ℚ) (burst_size : Nat)
    (now : ℚ) : RateLimiterTB :=
  { requests_per_second := requests_per_second
    base_delay := base_delay
    burst_size := burst_size
    tokens := (burst_size : ℚ)
    last_refill_time := now }

/-- Model of `RateLimiter.wait_with_token_bucket` at time `current_time`:
returns the waited duration and the new limiter state. -/
def wait_with_token_bucket (rl : RateLimiterTB) (current_time : ℚ) :
    ℚ × RateLimiterTB :=
  let time_passed := current_time - rl.last_refill_time
  let tokens_to_add := time_passed * rl.requests_per_second
  let rl1 := { rl with
    tokens := min (rl.burst_size : ℚ) (rl.tokens + tokens_to_add)
    last_refill_time := current_time }
  if 1 ≤ rl1.tokens then
    let rl2 := { rl1 with tokens := rl1.tokens - 1 }
    if 0 < rl2.base_delay then (rl2.base_delay, rl2) else (0, rl2)
  else
    let wait_time := (1 - rl1.tokens) / rl1.requests_per_second + rl1.base_delay
    (wait_time, { rl1 with tokens := 0
                           last_refill_time := current_time + wait_time })

/-- Iterated calls to `wait_with_token_bucket`, all at the same instant `t`
(no time elapses between calls). -/
def tbIter (s : RateLimiterTB) (t : ℚ) : Nat → RateLimiterTB
  | 0 => s
  | k + 1 => (wait_with_token_bucket (tbIter s t k) t).2

/-! ## rate_limiter.py: AdaptiveRateLimiter

Only the adaptive-control state is modelled (`requests_per_second`,
`min_interval`, the rate bounds, the success/error counters and the
response-time window); the shared wait-side fields are independent of
`on_success`/`on_error`. -/

structure AdaptiveRateLimiter where
  requests_per_second : ℚ
  min_interval : ℚ
  min_rate : ℚ
  max_rate : ℚ
  success_count : Nat
  error_count : Nat
  last_response_times : List ℚ

/-- Model of `AdaptiveRateLimiter.__init__`. -/
def mkAdaptive (initial_rate min_rate max_rate : ℚ) : AdaptiveRateLimiter :=
  { requests_per_second := initial_rate
    min_interval := 1 / initial_rate
    min_rate := min_rate
    max_rate := max_rate
    success_count := 0
    error_count := 0
    last_response_times := [] }

/-- Model of a `deque(maxlen=10)` append. -/
def appendMax10 (l : List ℚ) (x : ℚ) : List ℚ :=
  let l2 := l ++ [x]
  if 10 < l2.length then l2.drop (l2.length - 10) else l2

/-- Model of `AdaptiveRateLimiter._is_fast`. -/
def is_fast (a : AdaptiveRateLimiter) : Bool :=
  if a.last_response_times.length < 5 then false
  else decide (a.last_response_times.sum / (a.last_response_times.length : ℚ) < 1)

/-- Model of `AdaptiveRateLimiter._increase_rate` (default factor 1.2). -/
def increase_rate (a : AdaptiveRateLimiter) (factor : ℚ) : AdaptiveRateLimiter :=
  let new_rate := min a.max_rate (a.requests_per_second * factor)
  { a with requests_per_second := new_rate, min_interval := 1 / new_rate }

/-- Model of `AdaptiveRateLimiter._decrease_rate`. -/
def decrease_rate (a : AdaptiveRateLimiter) (factor : ℚ) : AdaptiveRateLimiter :=
  let new_rate := max a.min_rate (a.requests_per_second * factor)
  { a with requests_per_second := new_rate, min_interval := 1 / new_rate }

/-- Model of `AdaptiveRateLimiter.on_success`; note `max(0, error_count - 1)`
is truncated `Nat` subtraction, and `if response_time:` is falsy for both
`None` and `0.0`. -/
def on_success (a : AdaptiveRateLimiter) (response_time : Option ℚ) :
    AdaptiveRateLimiter :=
  let a1 := { a with success_count := a.success_count + 1
                     error_count := a.error_count - 1 }
  let a2 :=
    match response_time with
    | none => a1
    | some rt =>
      if rt ≠ 0 then
        { a1 with last_response_times := appendMax10 a1.last_response_times rt }
      else a1
  if 10 ≤ a2.success_count && is_fast a2 then
    { increase_rate a2 (6/5) with success_count := 0 }
  else a2

/-- Model of `AdaptiveRateLimiter.on_error`. -/
def on_error (a : AdaptiveRateLimiter) (is_rate_limit : Bool) :
    AdaptiveRateLimiter :=
  let a1 := { a with error_count := a.error_count + 1, success_count := 0 }
  if is_rate_limit then decrease_rate a1 (1/2)
  else if 3 ≤ a1.error_count then { decrease_rate a1 (4/5) with error_count := 0 }
  else a1

/-! ## Theorems: RetryHandler (claims C3, C4, C5) -/

/-- Closed form of the retry loop over an operation that fails with a
retryable error on every attempt: with `rem ≥ 1` iterations left it invokes
the operation `rem` more times, sleeps `rem - 1` more times, bumps
`total_attempts` by `rem`, `total_retries` by `rem - 1`, `total_failures`
by one, and propagates the failure of the final attempt. -/
lemma retryLoop_always_fail {ε α : Type} (mr : Nat) (re : Option (ε → Bool))
    (f : Nat → ε) (hre : ∀ i, is_retryable re (f i) = true) :
    ∀ (rem attempt : Nat) (st : RetryStats) (inv slp : Nat),
      attempt + rem = mr → 1 ≤ rem →
      retryLoop (α := α) mr re (fun i => Except.error (f i)) attempt rem st inv slp =
        ⟨some (Except.error (f (mr - 1))), inv + rem, slp + (rem - 1),
         ⟨st.total_attempts + rem, st.total_retries + (rem - 1),
          st.total_failures + 1⟩⟩ := by
  intro rem
  induction rem with
  | zero => intro _ _ _ _ _ h1; omega
  | succ k ih =>
    intro attempt st inv slp hsum _
    by_cases hk : k = 0
    · subst hk
      have hattempt : mr - 1 ≤ attempt := by omega
      have hlast : attempt = mr - 1 := by omega
      simp [retryLoop, hre, hattempt, hlast]
    · have hguard : ¬ mr - 1 ≤ attempt := by omega
      have hrec := ih (attempt + 1)
        ⟨st.total_attempts + 1, st.total_retries + 1, st.total_failures⟩
        (inv + 1) (slp + 1) (by omega) (by omega)
      simp only [retryLoop, hre, Bool.not_true, hguard, if_false]
      simp only [not_true, if_false, ite_false]
      rw [hrec]
      simp only [RetryOutcome.mk.injEq, RetryStats.mk.injEq]
      exact ⟨trivial, by omega, by omega, by omega, by omega, trivial⟩

/-- C3: with `maxAttempts = N ≥ 1` and an operation failing with a retryable
error on every invocation, `execute_with_retry` invokes the operation
exactly `N` times, propagates the failure of the last attempt (no value is
swallowed or substituted), and `totalFailures` grows by exactly one. -/
theorem retry_exhaustion_propagates {ε α : Type} (mr : Nat) (hmr : 1 ≤ mr)
    (re : Option (ε → Bool)) (f : Nat → ε)
    (hre : ∀ i, is_retryable re (f i) = true) (st : RetryStats) :
    execute_with_retry (α := α) mr re st (fun i => Except.error (f i)) =
      ⟨some (Except.error (f (mr - 1))), mr, mr - 1,
       ⟨st.total_attempts + mr, st.total_retries + (mr - 1),
        st.total_failures + 1⟩⟩ := by
  have h := retryLoop_always_fail (α := α) mr re f hre mr 0 st 0 0 (by omega) hmr
  simpa [execute_with_retry] using h

/-- Witness for C3 at `N = 2`, error type `Nat`, retry-everything filter. -/
theorem retry_exhaustion_propagates_witness :
    execute_with_retry (α := Nat) 2 none ⟨0, 0, 0⟩
        (fun i => Except.error i) =
      ⟨some (Except.error 1), 2, 1, ⟨2, 1, 1⟩⟩ :=
  retry_exhaustion_propagates 2 (by omega) none (fun i => i)
    (fun _ => rfl) ⟨0, 0, 0⟩

/-- C4: with `maxAttempts = 3` and an operation failing retryably on its
first two invocations and succeeding on the third, `execute_with_retry`
returns the success value with `totalAttempts` up by 3 and `totalRetries`
up by 2; and any operation succeeding on its first invocation returns
immediately after a single attempt. -/
theorem retry_two_failures_then_success {ε α : Type} (re : Option (ε → Bool))
    (st : RetryStats) (op : Nat → Except ε α) (e0 e1 : ε) (v : α)
    (h0 : op 0 = Except.error e0) (h1 : op 1 = Except.error e1)
    (h2 : op 2 = Except.ok v)
    (hr0 : is_retryable re e0 = true) (hr1 : is_retryable re e1 = true)
    (mr : Nat) (hmr : 1 ≤ mr) (op2 : Nat → Except ε α) (v2 : α)
    (hop2 : op2 0 = Except.ok v2) :
    (execute_with_retry 3 re st op).result = some (Except.ok v) ∧
    (execute_with_retry 3 re st op).stats.total_attempts = st.total_attempts + 3 ∧
    (execute_with_retry 3 re st op).stats.total_retries = st.total_retries + 2 ∧
    (execute_with_retry mr re st op2).result = some (Except.ok v2) ∧
    (execute_with_retry mr re st op2).invocations = 1 ∧
    (execute_with_retry mr re st op2).stats.total_attempts = st.total_attempts + 1 := by
  obtain ⟨k, rfl⟩ : ∃ k, mr = k + 1 := ⟨mr - 1, by omega⟩
  refine ⟨?_, ?_, ?_, ?_, ?_, ?_⟩ <;>
    simp [execute_with_retry, retryLoop, h0, h1, h2, hr0, hr1, hop2]

/-- Witness for C4: concrete operation over `ε = α = Nat`. -/
theorem retry_two_failures_then_success_witness :
    (execute_with_retry 3 none ⟨0, 0, 0⟩
        (fun i => if i < 2 then Except.error i else Except.ok 99)).result =
      some (Except.ok 99) ∧
    (execute_with_retry 3 none ⟨0, 0, 0⟩
        (fun i => if i < 2 then Except.error i else Except.ok 99)).stats.total_attempts = 3 ∧
    (execute_with_retry 3 none ⟨0, 0, 0⟩
        (fun i => if i < 2 then Except.error i else Except.ok 99)).stats.total_retries = 2 ∧
    (execute_with_retry (ε := Nat) 1 none (⟨0, 0, 0⟩ : RetryStats)
        (fun _ => Except.ok (5 : Nat))).result = some (Except.ok 5) ∧
    (execute_with_retry (ε := Nat) 1 none (⟨0, 0, 0⟩ : RetryStats)
        (fun _ => Except.ok (5 : Nat))).invocations = 1 ∧
    (execute_with_retry (ε := Nat) 1 none (⟨0, 0, 0⟩ : RetryStats)
        (fun _ => Except.ok (5 : Nat))).stats.total_attempts = 1 :=
  retry_two_failures_then_success none ⟨0, 0, 0⟩
    (fun i => if i < 2 then Except.error i else Except.ok 99) 0 1 99
    rfl rfl rfl rfl rfl 1 (by omega) (fun _ => Except.ok 5) 5 rfl

/-- C5: with a configured retryable filter and an operation whose first
invocation fails outside the filter, `execute_with_retry` propagates that
failure after exactly one invocation, with no backoff sleep and no further
attempts, for every `maxAttempts ≥ 1`; `total_failures` is untouched,
showing the retryability check precedes the attempt-exhaustion check. -/
theorem nonretryable_short_circuits {ε α : Type} (p : ε → Bool)
    (st : RetryStats) (op : Nat → Except ε α) (e : ε)
    (h0 : op 0 = Except.error e) (hp : p e = false)
    (mr : Nat) (hmr : 1 ≤ mr) :
    execute_with_retry mr (some p) st op =
      ⟨some (Except.error e), 1, 0,
       ⟨st.total_attempts + 1, st.total_retries, st.total_failures⟩⟩ := by
  obtain ⟨k, rfl⟩ : ∃ k, mr = k + 1 := ⟨mr - 1, by omega⟩
  simp [execute_with_retry, retryLoop, h0, is_retryable, hp]

/-- Witness for C5 at `maxAttempts = 4` with a filter rejecting the error. -/
theorem nonretryable_short_circuits_witness :
    execute_with_retry (α := Nat) 4 (some (fun e => decide (e < 7)))
        ⟨0, 0, 0⟩ (fun _ => Except.error 9) =
      ⟨some (Except.error 9), 1, 0, ⟨1, 0, 0⟩⟩ :=
  nonretryable_short_circuits (fun e => decide (e < 7)) ⟨0, 0, 0⟩
    (fun _ => Except.error 9) 9 rfl (by decide) 4 (by omega)

/-! ## Theorems: CircuitBreaker (claim C2) -/

/-- The breaker state reached from the initial state with threshold 3 and
recovery timeout `r` after three calls whose operation raises the
configured failure at times `t1`, `t2`, `t3`. -/
def cbAfterThreeFailures (r t1 t2 t3 : ℚ) : CircuitBreaker :=
  ((((mkCircuitBreaker 3 r).call t1 OpOutcome.expectedFailure).2.2.call t2
      OpOutcome.expectedFailure).2.2.call t3 OpOutcome.expectedFailure).2.2

/-- C2: with `failureThreshold = 3` from the initial CLOSED state, three
consecutive calls whose operation raises the configured failure leave the
breaker OPEN; a call before `recoveryTimeout` has elapsed since the last
failure raises the circuit-open signal without invoking the operation and
leaves the state untouched; a call once `recoveryTimeout` has elapsed
invokes the operation after moving to HALF_OPEN (visible as the resulting
state when the operation's outcome is not the configured category), and on
success the breaker ends CLOSED with `failureCount = 0`. -/
theorem circuit_breaker_threshold_cycle (r t1 t2 t3 t4 t5 : ℚ)
    (h4 : t4 - t3 < r) (h5 : r ≤ t5 - t3) :
    (cbAfterThreeFailures r t1 t2 t3).state = CBState.OPEN ∧
    (cbAfterThreeFailures r t1 t2 t3).failure_count = 3 ∧
    (cbAfterThreeFailures r t1 t2 t3).last_failure_time = some t3 ∧
    ((cbAfterThreeFailures r t1 t2 t3).call t4 OpOutcome.success).1 =
      CBCallResult.circuitOpenError ∧
    ((cbAfterThreeFailures r t1 t2 t3).call t4 OpOutcome.success).2.1 = false ∧
    ((cbAfterThreeFailures r t1 t2 t3).call t4 OpOutcome.success).2.2 =
      cbAfterThreeFailures r t1 t2 t3 ∧
    (∀ op : OpOutcome,
      ((cbAfterThreeFailures r t1 t2 t3).call t5 op).2.1 = true) ∧
    ((cbAfterThreeFailures r t1 t2 t3).call t5
        OpOutcome.unexpectedFailure).2.2.state = CBState.HALF_OPEN ∧
    ((cbAfterThreeFailures r t1 t2 t3).call t5 OpOutcome.success).1 =
      CBCallResult.returned ∧
    ((cbAfterThreeFailures r t1 t2 t3).call t5 OpOutcome.success).2.2.state =
      CBState.CLOSED ∧
    ((cbAfterThreeFailures r t1 t2 t3).call t5
        OpOutcome.success).2.2.failure_count = 0 := by
  have hcb1 : ((mkCircuitBreaker 3 r).call t1 OpOutcome.expectedFailure).2.2 =
      ⟨3, r, 1, some t1, CBState.CLOSED⟩ := by
    simp [CircuitBreaker.call, mkCircuitBreaker, record_failure]
  have hcb2 : (CircuitBreaker.call ⟨3, r, 1, some t1, CBState.CLOSED⟩ t2
      OpOutcome.expectedFailure).2.2 = ⟨3, r, 2, some t2, CBState.CLOSED⟩ := by
    simp [CircuitBreaker.call, record_failure]
  have hcb3 : cbAfterThreeFailures r t1 t2 t3 =
      ⟨3, r, 3, some t3, CBState.OPEN⟩ := by
    unfold cbAfterThreeFailures
    rw [hcb1, hcb2]
    simp [CircuitBreaker.call, record_failure]
  have hreset4 : should_attempt_reset ⟨3, r, 3, some t3, CBState.OPEN⟩ t4 = false := by
    simp [should_attempt_reset]
    linarith
  have hreset5 : should_attempt_reset ⟨3, r, 3, some t3, CBState.OPEN⟩ t5 = true := by
    simp [should_attempt_reset]
    linarith
  refine ⟨by simp [hcb3], by simp [hcb3], by simp [hcb3], ?_, ?_, ?_, ?_, ?_, ?_, ?_, ?_⟩
  · simp [CircuitBreaker.call, hcb3, hreset4]
  · simp [CircuitBreaker.call, hcb3, hreset4]
  · simp [CircuitBreaker.call, hcb3, hreset4]
  · intro op
    cases op <;> simp [CircuitBreaker.call, hcb3, hreset5]
  · simp [CircuitBreaker.call, hcb3, hreset5]
  · simp [CircuitBreaker.call, hcb3, hreset5, cbReset]
  · simp [CircuitBreaker.call, hcb3, hreset5, cbReset]
  · simp [CircuitBreaker.call, hcb3, hreset5, cbReset]

/-- Witness for C2 with `recoveryTimeout = 60` and concrete call times. -/
theorem circuit_breaker_threshold_cycle_witness :
    (cbAfterThreeFailures 60 0 1 2).state = CBState.OPEN ∧
    (cbAfterThreeFailures 60 0 1 2).failure_count = 3 ∧
    (cbAfterThreeFailures 60 0 1 2).last_failure_time = some 2 ∧
    ((cbAfterThreeFailures 60 0 1 2).call 3 OpOutcome.success).1 =
      CBCallResult.circuitOpenError ∧
    ((cbAfterThreeFailures 60 0 1 2).call 3 OpOutcome.success).2.1 = false ∧
    ((cbAfterThreeFailures 60 0 1 2).call 3 OpOutcome.success).2.2 =
      cbAfterThreeFailures 60 0 1 2 ∧
    (∀ op : OpOutcome,
      ((cbAfterThreeFailures 60 0 1 2).call 62 op).2.1 = true) ∧
    ((cbAfterThreeFailures 60 0 1 2).call 62
        OpOutcome.unexpectedFailure).2.2.state = CBState.HALF_OPEN ∧
    ((cbAfterThreeFailures 60 0 1 2).call 62 OpOutcome.success).1 =
      CBCallResult.returned ∧
    ((cbAfterThreeFailures 60 0 1 2).call 62 OpOutcome.success).2.2.state =
      CBState.CLOSED ∧
    ((cbAfterThreeFailures 60 0 1 2).call 62
        OpOutcome.success).2.2.failure_count = 0 :=
  circuit_breaker_threshold_cycle 60 0 1 2 3 62 (by norm_num) (by norm_num)

/-! ## Theorems: token-bucket rate limiter (claim C9) -/

/-- One token-bucket call with `base_delay = 0`, bucket at `b - k` tokens
with at least one whole token left and no time elapsed: zero wait, one token
consumed. -/
lemma tb_step_zero (rate : ℚ) (b : Nat) (t : ℚ) (k : Nat) (hk : k < b) :
    wait_with_token_bucket ⟨rate, 0, b, (b : ℚ) - k, t⟩ t =
      (0, ⟨rate, 0, b, (b : ℚ) - (k + 1 : Nat), t⟩) := by
  have hcast : (k : ℚ) + 1 ≤ (b : ℚ) := by exact_mod_cast hk
  have hmin : min ((b : ℚ)) ((b : ℚ) - k) = (b : ℚ) - k :=
    min_eq_right (by linarith [Nat.cast_nonneg (α := ℚ) k])
  simp only [wait_with_token_bucket, sub_self, zero_mul, add_zero, hmin]
  rw [if_pos (by linarith)]
  have : (b : ℚ) - k - 1 = (b : ℚ) - (k + 1 : Nat) := by push_cast; ring
  simp [this]

/-- Closed form for `k ≤ b` calls at the same instant on a fresh full bucket
with `base_delay = 0`: each call consumes one token, so `b - k` remain. -/
lemma tbIter_closed (rate : ℚ) (b : Nat) (t : ℚ) :
    ∀ k : Nat, k ≤ b →
      tbIter (mkRateLimiterTB rate 0 b t) t k = ⟨rate, 0, b, (b : ℚ) - k, t⟩ := by
  intro k
  induction k with
  | zero => intro _; simp [tbIter, mkRateLimiterTB]
  | succ k ih =>
    intro hk
    have hk1 : k ≤ b := by omega
    simp only [tbIter, ih hk1, tb_step_zero rate b t k (by omega)]

/-- C9: a token-bucket limiter with `burstSize = b ≥ 1`, `baseDelay = 0` and
a positive configured rate, starting from a fresh full bucket: the first `b`
calls issued with no time elapsing each wait 0, the `(b+1)`-th waits a
strictly positive duration, and the token count stays within `[0, b]`
throughout (including after the `(b+1)`-th call). -/
theorem token_bucket_burst (rate : ℚ) (hr : 0 < rate) (b : Nat) (hb : 1 ≤ b)
    (t : ℚ) :
    (∀ k, k < b →
      (wait_with_token_bucket (tbIter (mkRateLimiterTB rate 0 b t) t k) t).1 = 0) ∧
    0 < (wait_with_token_bucket (tbIter (mkRateLimiterTB rate 0 b t) t b) t).1 ∧
    (∀ k, k ≤ b →
      0 ≤ (tbIter (mkRateLimiterTB rate 0 b t) t k).tokens ∧
      (tbIter (mkRateLimiterTB rate 0 b t) t k).tokens ≤ (b : ℚ)) ∧
    (wait_with_token_bucket (tbIter (mkRateLimiterTB rate 0 b t) t b) t).2.tokens = 0 ∧
    (wait_with_token_bucket (tbIter (mkRateLimiterTB rate 0 b t) t b) t).2.tokens ≤
      (b : ℚ) := by
  have hempty : tbIter (mkRateLimiterTB rate 0 b t) t b = ⟨rate, 0, b, 0, t⟩ := by
    rw [tbIter_closed rate b t b (le_refl b)]; norm_num
  have hb0 : (0 : ℚ) ≤ (b : ℚ) := Nat.cast_nonneg b
  have hcall : wait_with_token_bucket ⟨rate, 0, b, 0, t⟩ t =
      (1 / rate, ⟨rate, 0, b, 0, t + 1 / rate⟩) := by
    simp only [wait_with_token_bucket, sub_self, zero_mul, add_zero, zero_add]
    rw [min_eq_right hb0]
    rw [if_neg (by norm_num)]
    norm_num
  refine ⟨?_, ?_, ?_, ?_, ?_⟩
  · intro k hk
    rw [tbIter_closed rate b t k (by omega), tb_step_zero rate b t k hk]
  · rw [hempty, hcall]
    show 0 < 1 / rate
    positivity
  · intro k hk
    rw [tbIter_closed rate b t k hk]
    have hkc : (k : ℚ) ≤ (b : ℚ) := by exact_mod_cast hk
    have hk0 : (0 : ℚ) ≤ (k : ℚ) := Nat.cast_nonneg k
    exact ⟨by show (0 : ℚ) ≤ (b : ℚ) - (k : ℚ); linarith,
           by show (b : ℚ) - (k : ℚ) ≤ (b : ℚ); linarith⟩
  · rw [hempty, hcall]
  · rw [hempty, hcall]
    show (0 : ℚ) ≤ (b : ℚ)
    exact hb0

/-- Witness for C9 at rate 2 tokens/second, burst size 3, start time 0. -/
theorem token_bucket_burst_witness :
    (∀ k, k < 3 →
      (wait_with_token_bucket (tbIter (mkRateLimiterTB 2 0 3 0) 0 k) 0).1 = 0) ∧
    0 < (wait_with_token_bucket (tbIter (mkRateLimiterTB 2 0 3 0) 0 3) 0).1 ∧
    (∀ k, k ≤ 3 →
      0 ≤ (tbIter (mkRateLimiterTB 2 0 3 0) 0 k).tokens ∧
      (tbIter (mkRateLimiterTB 2 0 3 0) 0 k).tokens ≤ (3 : ℚ)) ∧
    (wait_with_token_bucket (tbIter (mkRateLimiterTB 2 0 3 0) 0 3) 0).2.tokens = 0 ∧
    (wait_with_token_bucket (tbIter (mkRateLimiterTB 2 0 3 0) 0 3) 0).2.tokens ≤
      (3 : ℚ) :=
  token_bucket_burst 2 (by norm_num) 3 (by norm_num) 0

/-! ## Theorems: AdaptiveRateLimiter (claim C8) -/

/-- Counterexample to the claim that a success resets the error streak:
`on_success` only decrements `error_count` (`max(0, error_count - 1)`).
After two non-throttling errors, one success and two more non-throttling
errors from a fresh limiter, `error_count` reached 3 and the rate was
multiplied by 0.8 even though the errors were not consecutive; and after
two errors then a success the error streak is 1, not 0. -/
theorem on_success_decrements_error_streak :
    (on_success (on_error (on_error (mkAdaptive 1 (1/10) 5) false) false)
      none).error_count = 1 ∧
    (on_error (on_error (on_success
        (on_error (on_error (mkAdaptive 1 (1/10) 5) false) false)
        none) false) false).requests_per_second = 4/5 := by
  constructor
  · rfl
  · norm_num [mkAdaptive, on_error, on_success, decrease_rate]

/-- C8 as amended: for an adaptive limiter with
`0 < minRate ≤ configuredRate ≤ maxRate`, a throttling error halves the
rate immediately (clamped at `minRate`); a non-throttling error leaves the
rate unchanged while the error counter is below 3 and multiplies it by 0.8
(clamped, counter reset) once the counter reaches 3; a success decrements
the error counter by one (floored at zero) — not a reset — while an error
resets the success counter to zero; and both `on_error` and `on_success`
keep the configured rate within `[minRate, maxRate]`. -/
theorem adaptive_rate_transitions (a : AdaptiveRateLimiter)
    (hmin : 0 < a.min_rate) (hmm : a.min_rate ≤ a.max_rate)
    (hlo : a.min_rate ≤ a.requests_per_second)
    (hhi : a.requests_per_second ≤ a.max_rate) :
    ((on_error a true).requests_per_second =
      max a.min_rate (a.requests_per_second * (1/2))) ∧
    (a.error_count + 1 < 3 →
      (on_error a false).requests_per_second = a.requests_per_second ∧
      (on_error a false).error_count = a.error_count + 1) ∧
    (3 ≤ a.error_count + 1 →
      (on_error a false).requests_per_second =
        max a.min_rate (a.requests_per_second * (4/5)) ∧
      (on_error a false).error_count = 0) ∧
    (∀ rt, (on_success a rt).error_count = a.error_count - 1) ∧
    (∀ b, (on_error a b).success_count = 0) ∧
    (∀ b, a.min_rate ≤ (on_error a b).requests_per_second ∧
          (on_error a b).requests_per_second ≤ a.max_rate) ∧
    (∀ rt, a.min_rate ≤ (on_success a rt).requests_per_second ∧
           (on_success a rt).requests_per_second ≤ a.max_rate) := by
  have hrate0 : 0 < a.requests_per_second := lt_of_lt_of_le hmin hlo
  refine ⟨?_, ?_, ?_, ?_, ?_, ?_, ?_⟩
  · simp [on_error, decrease_rate]
  · intro h3
    have h3b : ¬ 3 ≤ a.error_count + 1 := by omega
    simp [on_error, h3b]
  · intro h3
    simp [on_error, h3, decrease_rate]
  · intro rt
    simp only [on_success]
    rcases rt with _ | q
    · split <;> rfl
    · by_cases hq : q ≠ 0
      · simp only [if_pos hq]
        split <;> rfl
      · simp only [if_neg hq]
        split <;> rfl
  · intro b
    cases b <;> simp [on_error, decrease_rate] <;> split <;> simp
  · intro b
    have hdec : ∀ f : ℚ, 0 < f → f ≤ 1 →
        a.min_rate ≤ max a.min_rate (a.requests_per_second * f) ∧
        max a.min_rate (a.requests_per_second * f) ≤ a.max_rate := by
      intro f hf0 hf1
      refine ⟨le_max_left _ _, max_le hmm ?_⟩
      calc a.requests_per_second * f ≤ a.requests_per_second * 1 := by
            exact mul_le_mul_of_nonneg_left hf1 (le_of_lt hrate0)
        _ = a.requests_per_second := mul_one _
        _ ≤ a.max_rate := hhi
    cases b with
    | true =>
      have := hdec (1/2) (by norm_num) (by norm_num)
      simpa [on_error, decrease_rate] using this
    | false =>
      by_cases h3 : 3 ≤ a.error_count + 1
      · have := hdec (4/5) (by norm_num) (by norm_num)
        simpa [on_error, decrease_rate, h3] using this
      · simp [on_error, h3]
        exact ⟨hlo, hhi⟩
  · intro rt
    have hinc : ∀ x : AdaptiveRateLimiter,
        x.min_rate = a.min_rate → x.max_rate = a.max_rate →
        x.requests_per_second = a.requests_per_second →
        a.min_rate ≤ (if 10 ≤ x.success_count && is_fast x then
            { increase_rate x (6/5) with success_count := 0 }
          else x).requests_per_second ∧
        (if 10 ≤ x.success_count && is_fast x then
            { increase_rate x (6/5) with success_count := 0 }
          else x).requests_per_second ≤ a.max_rate := by
      intro x e1 e2 e3
      split
      · constructor
        · show a.min_rate ≤ min x.max_rate (x.requests_per_second * (6/5))
          rw [e2, e3]
          refine le_min hmm ?_
          calc a.min_rate ≤ a.requests_per_second := hlo
            _ = a.requests_per_second * 1 := (mul_one _).symm
            _ ≤ a.requests_per_second * (6/5) := by
                exact mul_le_mul_of_nonneg_left (by norm_num) (le_of_lt hrate0)
        · show min x.max_rate (x.requests_per_second * (6/5)) ≤ a.max_rate
          rw [e2]
          exact min_le_left _ _
      · rw [e3]
        exact ⟨hlo, hhi⟩
    rcases rt with _ | q
    · exact hinc _ rfl rfl rfl
    · simp only [on_success]
      exact hinc _ (by split <;> rfl) (by split <;> rfl) (by split <;> rfl)

/-- Witness for the amended C8 at a concrete limiter with rate 1,
bounds `[1/10, 5]`. -/
theorem adaptive_rate_transitions_witness :
    ((on_error (mkAdaptive 1 (1/10) 5) true).requests_per_second =
      max (mkAdaptive 1 (1/10) 5).min_rate
        ((mkAdaptive 1 (1/10) 5).requests_per_second * (1/2))) ∧
    ((mkAdaptive 1 (1/10) 5).error_count + 1 < 3 →
      (on_error (mkAdaptive 1 (1/10) 5) false).requests_per_second =
        (mkAdaptive 1 (1/10) 5).requests_per_second ∧
      (on_error (mkAdaptive 1 (1/10) 5) false).error_count =
        (mkAdaptive 1 (1/10) 5).error_count + 1) ∧
    (3 ≤ (mkAdaptive 1 (1/10) 5).error_count + 1 →
      (on_error (mkAdaptive 1 (1/10) 5) false).requests_per_second =
        max (mkAdaptive 1 (1/10) 5).min_rate
          ((mkAdaptive 1 (1/10) 5).requests_per_second * (4/5)) ∧
      (on_error (mkAdaptive 1 (1/10) 5) false).error_count = 0) ∧
    (∀ rt, (on_success (mkAdaptive 1 (1/10) 5) rt).error_count =
      (mkAdaptive 1 (1/10) 5).error_count - 1) ∧
    (∀ b, (on_error (mkAdaptive 1 (1/10) 5) b).success_count = 0) ∧
    (∀ b, (mkAdaptive 1 (1/10) 5).min_rate ≤
            (on_error (mkAdaptive 1 (1/10) 5) b).requests_per_second ∧
          (on_error (mkAdaptive 1 (1/10) 5) b).requests_per_second ≤
            (mkAdaptive 1 (1/10) 5).max_rate) ∧
    (∀ rt, (mkAdaptive 1 (1/10) 5).min_rate ≤
             (on_success (mkAdaptive 1 (1/10) 5) rt).requests_per_second ∧
           (on_success (mkAdaptive 1 (1/10) 5) rt).requests_per_second ≤
             (mkAdaptive 1 (1/10) 5).max_rate) :=
  adaptive_rate_transitions (mkAdaptive 1 (1/10) 5)
    (by norm_num [mkAdaptive]) (by norm_num [mkAdaptive])
    (by norm_num [mkAdaptive]) (by norm_num [mkAdaptive])

/-! ## Theorems: DuplicateDetector (claims C1, C6, C7, C10) -/

/-- The duplicate verdict of `is_duplicate` as a pure function of the
pre-call state: an exact-hash hit, or (perceptual hashing enabled, a truthy
perceptual hash supplied, some bucket stored, and some bucket key within
the Hamming threshold). -/
def isDupQuery (d : DuplicateDetector) (exact_hash : String)
    (perceptual_hash : Option String) (similarity_threshold : Nat) : Bool :=
  decide (exact_hash ∈ d.exact_hashes) ||
    (d.enable_perceptual_hashing && truthyOptStr perceptual_hash
      && !d.perceptual_hashes.isEmpty
      && d.perceptual_hashes.any (fun kv =>
          distWithin (hamming_distance (perceptual_hash.getD "") kv.1)
            similarity_threshold))

lemma is_duplicate_fst (d : DuplicateDetector) (e : String)
    (p : Option String) (t : Nat) :
    (is_duplicate d e p t).1 = isDupQuery d e p t := by
  unfold is_duplicate isDupQuery
  by_cases hm : e ∈ d.exact_hashes
  · simp [hm]
  · cases hc : d.enable_perceptual_hashing && truthyOptStr p
        && !d.perceptual_hashes.isEmpty with
    | false => simp [hm, hc]
    | true =>
      cases ha : d.perceptual_hashes.any (fun kv =>
          distWithin (hamming_distance (p.getD "") kv.1) t) with
      | false => simp [hm, hc, ha]
      | true => simp [hm, hc, ha]

lemma is_duplicate_sets (d : DuplicateDetector) (e : String)
    (p : Option String) (t : Nat) :
    (is_duplicate d e p t).2.exact_hashes = d.exact_hashes ∧
    (is_duplicate d e p t).2.perceptual_hashes = d.perceptual_hashes ∧
    (is_duplicate d e p t).2.enable_perceptual_hashing =
      d.enable_perceptual_hashing := by
  refine ⟨?_, ?_, ?_⟩ <;>
  · simp only [is_duplicate]
    split
    · rfl
    · split
      · split
        · rfl
        · rfl
      · rfl

lemma check_and_add_fst (d : DuplicateDetector) (e : String)
    (p : Option String) (t : Nat) :
    (check_and_add d e p t).1 = (is_duplicate d e p t).1 := by
  unfold check_and_add
  rcases h : is_duplicate d e p t with ⟨b, d1⟩
  cases b <;> simp [h]

lemma check_and_add_snd_true (d : DuplicateDetector) (e : String)
    (p : Option String) (t : Nat) (h : (is_duplicate d e p t).1 = true) :
    (check_and_add d e p t).2 = (is_duplicate d e p t).2 := by
  unfold check_and_add
  rcases hh : is_duplicate d e p t with ⟨b, d1⟩
  rw [hh] at h
  cases b
  · exact absurd h (by simp)
  · simp

lemma check_and_add_snd_false (d : DuplicateDetector) (e : String)
    (p : Option String) (t : Nat) (h : (is_duplicate d e p t).1 = false) :
    (check_and_add d e p t).2 = add_hash (is_duplicate d e p t).2 e p := by
  unfold check_and_add
  rcases hh : is_duplicate d e p t with ⟨b, d1⟩
  rw [hh] at h
  cases b
  · simp
  · exact absurd h (by simp)

lemma add_hash_sets (d : DuplicateDetector) (e : String) (p : Option String) :
    (add_hash d e p).exact_hashes = insert e d.exact_hashes ∧
    (add_hash d e p).perceptual_hashes =
      (if d.enable_perceptual_hashing && truthyOptStr p then
        bucketAdd d.perceptual_hashes (p.getD "") e
      else d.perceptual_hashes) := by
  unfold add_hash
  split
  · next hcond => simp [hcond]
  · next hcond => simp [hcond]

/-- A hash already in `exactHashes` is always reported as a duplicate by
`check_and_add`. -/
lemma check_and_add_mem (d : DuplicateDetector) (e : String)
    (p : Option String) (t : Nat) (hm : e ∈ d.exact_hashes) :
    (check_and_add d e p t).1 = true := by
  rw [check_and_add_fst, is_duplicate_fst]
  unfold isDupQuery
  simp [hm]

/-- A `check_and_add` call never removes an exact hash. -/
lemma check_and_add_mono (d : DuplicateDetector) (a e : String)
    (p : Option String) (t : Nat) (hm : e ∈ d.exact_hashes) :
    e ∈ (check_and_add d a p t).2.exact_hashes := by
  cases hb : (is_duplicate d a p t).1 with
  | true =>
    rw [check_and_add_snd_true d a p t hb, (is_duplicate_sets d a p t).1]
    exact hm
  | false =>
    rw [check_and_add_snd_false d a p t hb,
      (add_hash_sets (is_duplicate d a p t).2 a p).1,
      (is_duplicate_sets d a p t).1]
    exact Finset.mem_insert_of_mem hm

/-- One `check_and_add` call folded over a batch of later inputs. -/
def caStep (d : DuplicateDetector) (x : String × Option String × Nat) :
    DuplicateDetector :=
  (check_and_add d x.1 x.2.1 x.2.2).2

lemma foldl_caStep_mono (later : List (String × Option String × Nat)) :
    ∀ (d : DuplicateDetector) (e : String), e ∈ d.exact_hashes →
      e ∈ (later.foldl caStep d).exact_hashes := by
  induction later with
  | nil => intro d e hm; exact hm
  | cons x xs ih =>
    intro d e hm
    exact ih (caStep d x) e (check_and_add_mono d x.1 e x.2.1 x.2.2 hm)

/-- C1: `check_and_add` returns the duplicate verdict of the pre-call
state; on `true` the hash collections are unchanged, on `false` the exact
hash is inserted (and, with perceptual hashing enabled and a truthy
perceptual hash, the corresponding bucket gains the exact hash); on an
empty detector the first call for a hash returns `false` and every
subsequent call with the same hash, after any batch of further
`check_and_add` calls, returns `true`. -/
theorem check_and_add_contract (d : DuplicateDetector) (e : String)
    (p : Option String) (t : Nat) :
    ((check_and_add d e p t).1 = isDupQuery d e p t) ∧
    ((check_and_add d e p t).1 = true →
      (check_and_add d e p t).2.exact_hashes = d.exact_hashes ∧
      (check_and_add d e p t).2.perceptual_hashes = d.perceptual_hashes) ∧
    ((check_and_add d e p t).1 = false →
      (check_and_add d e p t).2.exact_hashes = insert e d.exact_hashes ∧
      (check_and_add d e p t).2.perceptual_hashes =
        (if d.enable_perceptual_hashing && truthyOptStr p then
          bucketAdd d.perceptual_hashes (p.getD "") e
        else d.perceptual_hashes)) ∧
    (∀ en : Bool, (check_and_add (mkDetector en) e p t).1 = false) ∧
    (∀ (en : Bool) (later : List (String × Option String × Nat))
        (p2 : Option String) (t2 : Nat),
      (check_and_add (later.foldl caStep (check_and_add (mkDetector en) e p t).2)
        e p2 t2).1 = true) := by
  have hfresh : ∀ en : Bool, (check_and_add (mkDetector en) e p t).1 = false := by
    intro en
    rw [check_and_add_fst, is_duplicate_fst]
    unfold isDupQuery mkDetector
    simp
  refine ⟨(check_and_add_fst d e p t).trans (is_duplicate_fst d e p t), ?_, ?_, hfresh, ?_⟩
  · intro htrue
    rw [check_and_add_fst] at htrue
    rw [check_and_add_snd_true d e p t htrue]
    exact ⟨(is_duplicate_sets d e p t).1, (is_duplicate_sets d e p t).2.1⟩
  · intro hfalse
    rw [check_and_add_fst] at hfalse
    rw [check_and_add_snd_false d e p t hfalse]
    constructor
    · rw [(add_hash_sets (is_duplicate d e p t).2 e p).1,
        (is_duplicate_sets d e p t).1]
    · rw [(add_hash_sets (is_duplicate d e p t).2 e p).2,
        (is_duplicate_sets d e p t).2.1, (is_duplicate_sets d e p t).2.2]
  · intro en later p2 t2
    have hmem : e ∈ (check_and_add (mkDetector en) e p t).2.exact_hashes := by
      rw [check_and_add_snd_false (mkDetector en) e p t
          (by rw [← check_and_add_fst]; exact hfresh en),
        (add_hash_sets _ e p).1]
      exact Finset.mem_insert_self e _
    exact check_and_add_mem _ e p2 t2 (foldl_caStep_mono later _ e hmem)

/-- Witness for C1: fresh hash on an empty detector, then two repeats. -/
theorem check_and_add_contract_witness :
    ((check_and_add (mkDetector false) "ab" none 5).1 = false) ∧
    ((check_and_add ((List.nil).foldl caStep
        (check_and_add (mkDetector false) "ab" none 5).2) "ab" none 5).1 = true) ∧
    ((check_and_add ([("ab", none, 5)].foldl caStep
        (check_and_add (mkDetector false) "ab" none 5).2) "ab" none 5).1 = true) :=
  ⟨(check_and_add_contract (mkDetector false) "ab" none 5).2.2.2.1 false,
   (check_and_add_contract (mkDetector false) "ab" none 5).2.2.2.2 false
     List.nil none 5,
   (check_and_add_contract (mkDetector false) "ab" none 5).2.2.2.2 false
     [("ab", none, 5)] none 5⟩

lemma isHexStr_not_empty (s : String) (h : isHexStr s = true) :
    s.isEmpty = false := by
  unfold isHexStr at h
  rcases Bool.and_eq_true_iff.1 h with ⟨h1, _⟩
  cases hs : s.isEmpty
  · rfl
  · rw [hs] at h1; exact absurd h1 (by simp)

/-- Bridge between the code's guarded Hamming comparison and the spec's
reading: for hex-decodable strings the comparison succeeds exactly on equal
lengths and bit-distance within the threshold. -/
lemma distWithin_hamming (cand key : String) (t : Nat)
    (hc : isHexStr cand = true) (hk : isHexStr key = true) :
    distWithin (hamming_distance cand key) t = true ↔
      (key.length = cand.length ∧
        countSetBits (Nat.xor (hexVal cand) (hexVal key)) ≤ t) := by
  unfold hamming_distance
  by_cases hl : cand.length = key.length
  · rw [if_neg (by simp [hl]), if_pos (by simp [hc, hk])]
    unfold distWithin
    simp [hl, eq_comm]
  · rw [if_pos (by simp [hl])]
    unfold distWithin
    simp
    intro hkey
    exact absurd hkey.symm hl

/-- C6: with perceptual hashing enabled, at least one stored bucket, a
candidate exact hash not in `exactHashes`, and hex-format perceptual
hashes, the detector reports a duplicate exactly when some stored bucket
key has the same length as the candidate perceptual hash and the Hamming
distance of the hex-decoded values is within the threshold; in particular
keys of a different length never match. -/
theorem perceptual_match_iff (d : DuplicateDetector) (e cand : String)
    (t : Nat)
    (hen : d.enable_perceptual_hashing = true)
    (hne : d.perceptual_hashes ≠ [])
    (hmem : e ∉ d.exact_hashes)
    (hcand : isHexStr cand = true)
    (hkeys : ∀ kv ∈ d.perceptual_hashes, isHexStr kv.1 = true) :
    (is_duplicate d e (some cand) t).1 = true ↔
      ∃ kv ∈ d.perceptual_hashes, kv.1.length = cand.length ∧
        countSetBits (Nat.xor (hexVal cand) (hexVal kv.1)) ≤ t := by
  rw [is_duplicate_fst]
  unfold isDupQuery
  have htr : truthyOptStr (some cand) = true := by
    have h2 := isHexStr_not_empty cand hcand
    simp [truthyOptStr, h2]
  have hemp : d.perceptual_hashes.isEmpty = false := by
    cases hph : d.perceptual_hashes
    · exact absurd hph hne
    · rfl
  have hdec : decide (e ∈ d.exact_hashes) = false := decide_eq_false hmem
  rw [hen, htr, hemp, hdec]
  simp only [Bool.false_or, Bool.not_false, Bool.true_and, Bool.and_true,
    List.any_eq_true, Option.getD_some]
  constructor
  · rintro ⟨kv, hkv, hd⟩
    exact ⟨kv, hkv, (distWithin_hamming cand kv.1 t hcand (hkeys kv hkv)).1 hd⟩
  · rintro ⟨kv, hkv, hd⟩
    exact ⟨kv, hkv, (distWithin_hamming cand kv.1 t hcand (hkeys kv hkv)).2 hd⟩

/-- Witness for C6: bucket key "ff" matches candidate "fe" (distance 1),
while a detector holding only the longer key "ffff" does not match "fe". -/
theorem perceptual_match_iff_witness :
    ((is_duplicate ⟨∅, [("ff", ["aa"])], true, 0, 0⟩ "bb" (some "fe") 5).1 = true ↔
      ∃ kv ∈ [("ff", ["aa"])], kv.1.length = String.length "fe" ∧
        countSetBits (Nat.xor (hexVal "fe") (hexVal kv.1)) ≤ 5) ∧
    ((is_duplicate ⟨∅, [("ffff", ["aa"])], true, 0, 0⟩ "bb" (some "fe") 5).1 = true ↔
      ∃ kv ∈ [("ffff", ["aa"])], kv.1.length = String.length "fe" ∧
        countSetBits (Nat.xor (hexVal "fe") (hexVal kv.1)) ≤ 5) :=
  ⟨perceptual_match_iff ⟨∅, [("ff", ["aa"])], true, 0, 0⟩ "bb" "fe" 5
      rfl (by decide) (by decide) (by decide) (by decide),
   perceptual_match_iff ⟨∅, [("ffff", ["aa"])], true, 0, 0⟩ "bb" "fe" 5
      rfl (by decide) (by decide) (by decide) (by decide)⟩

/-- C10: importing an exported detector state into a fresh detector with the
same perceptual-hashing setting restores both hash collections exactly, and
every previously-seen exact hash is reported as a duplicate by both the
original and the restored detector. -/
theorem export_import_roundtrip (d : DuplicateDetector) :
    (import_hashes (mkDetector d.enable_perceptual_hashing)
        (export_hashes d)).exact_hashes = d.exact_hashes ∧
    (import_hashes (mkDetector d.enable_perceptual_hashing)
        (export_hashes d)).perceptual_hashes = d.perceptual_hashes ∧
    (∀ h, h ∈ d.exact_hashes → ∀ (p : Option String) (t : Nat),
      (check_and_add (import_hashes (mkDetector d.enable_perceptual_hashing)
          (export_hashes d)) h p t).1 = true ∧
      (check_and_add d h p t).1 = true) := by
  have hexact : (import_hashes (mkDetector d.enable_perceptual_hashing)
      (export_hashes d)).exact_hashes = d.exact_hashes := by
    unfold import_hashes export_hashes
    exact Finset.sort_toFinset _ d.exact_hashes
  refine ⟨hexact, rfl, ?_⟩
  intro h hm p t
  exact ⟨check_and_add_mem _ h p t (by rw [hexact]; exact hm),
    check_and_add_mem d h p t hm⟩

/-- Witness for C10 at a concrete detector holding one exact hash and one
perceptual bucket. -/
theorem export_import_roundtrip_witness :
    (import_hashes (mkDetector true)
        (export_hashes ⟨{"aa"}, [("ff", ["aa"])], true, 1, 2⟩)).exact_hashes =
      ({"aa"} : Finset String) ∧
    (import_hashes (mkDetector true)
        (export_hashes ⟨{"aa"}, [("ff", ["aa"])], true, 1, 2⟩)).perceptual_hashes =
      [("ff", ["aa"])] ∧
    (check_and_add (import_hashes (mkDetector true)
        (export_hashes ⟨{"aa"}, [("ff", ["aa"])], true, 1, 2⟩)) "aa" none 5).1 = true ∧
    (check_and_add (⟨{"aa"}, [("ff", ["aa"])], true, 1, 2⟩ : DuplicateDetector)
        "aa" none 5).1 = true :=
  ⟨(export_import_roundtrip ⟨{"aa"}, [("ff", ["aa"])], true, 1, 2⟩).1,
   (export_import_roundtrip ⟨{"aa"}, [("ff", ["aa"])], true, 1, 2⟩).2.1,
   ((export_import_roundtrip ⟨{"aa"}, [("ff", ["aa"])], true, 1, 2⟩).2.2
      "aa" (by decide) none 5).1,
   ((export_import_roundtrip ⟨{"aa"}, [("ff", ["aa"])], true, 1, 2⟩).2.2
      "aa" (by decide) none 5).2⟩

lemma roundHalfEven_close (q : ℚ) : |(roundHalfEven q : ℚ) - q| ≤ 1/2 := by
  have h0 : ((⌊q⌋ : ℤ) : ℚ) ≤ q := Int.floor_le q
  have h1 : q < ((⌊q⌋ : ℤ) : ℚ) + 1 := Int.lt_floor_add_one q
  unfold roundHalfEven
  split_ifs with hlt hgt heven
  · rw [abs_le]; constructor <;> linarith
  · rw [abs_le]; push_cast; constructor <;> linarith
  · rw [abs_le]
    have : q - ((⌊q⌋ : ℤ) : ℚ) = 1/2 := by linarith
    constructor <;> linarith
  · rw [abs_le]
    have : q - ((⌊q⌋ : ℤ) : ℚ) = 1/2 := by linarith
    push_cast
    constructor <;> linarith

lemma round2_close (q : ℚ) : |round2 q - q| ≤ 1/200 := by
  have h := roundHalfEven_close (q * 100)
  unfold round2
  rw [abs_le] at h ⊢
  have he : (roundHalfEven (q * 100) : ℚ) / 100 - q =
      ((roundHalfEven (q * 100) : ℚ) - q * 100) / 100 := by ring
  rw [he]
  constructor <;> linarith

/-- One fresh hash plus two repeats of it: the rate reported by the code is
66.67 (percent, rounded half-to-even to two decimals). -/
lemma scenario_rate :
    (get_statistics (check_and_add (check_and_add (check_and_add
        (mkDetector false) "ab" none 5).2 "ab" none 5).2
        "ab" none 5).2).duplicate_rate = 6667/100 := by
  have hd3 : (check_and_add (check_and_add (check_and_add (mkDetector false)
      "ab" none 5).2 "ab" none 5).2 "ab" none 5).2 =
      ⟨{"ab"}, [], false, 2, 3⟩ := by decide
  rw [hd3]
  show (if 0 < 3 then round2 ((2 : ℚ) / (3 : ℚ) * 100) else 0) = 6667/100
  rw [if_pos (by norm_num)]
  norm_num [round2, roundHalfEven]

/-- Counterexample to C7: `get_statistics` reports `duplicate_rate` as the
percentage `round(duplicate_count / total_checked * 100, 2)`, not the
fraction `duplicate_count / total_checked`.  After one fresh hash and two
repeats the code reports 66.67, not 2/3. -/
theorem duplicate_rate_is_percentage :
    (check_and_add (check_and_add (check_and_add (mkDetector false)
        "ab" none 5).2 "ab" none 5).2 "ab" none 5).2.duplicate_count = 2 ∧
    (check_and_add (check_and_add (check_and_add (mkDetector false)
        "ab" none 5).2 "ab" none 5).2 "ab" none 5).2.total_checked = 3 ∧
    (get_statistics (check_and_add (check_and_add (check_and_add
        (mkDetector false) "ab" none 5).2 "ab" none 5).2
        "ab" none 5).2).duplicate_rate = 6667/100 ∧
    (get_statistics (check_and_add (check_and_add (check_and_add
        (mkDetector false) "ab" none 5).2 "ab" none 5).2
        "ab" none 5).2).duplicate_rate ≠ 2/3 := by
  have hd3 : (check_and_add (check_and_add (check_and_add (mkDetector false)
      "ab" none 5).2 "ab" none 5).2 "ab" none 5).2 =
      ⟨{"ab"}, [], false, 2, 3⟩ := by decide
  refine ⟨by rw [hd3], by rw [hd3], scenario_rate, ?_⟩
  rw [scenario_rate]
  norm_num

/-- C7 as amended: the reported `duplicateRate` is the percentage
`duplicateCount / totalChecked * 100` rounded to two decimal places (so it
is within 0.005 of the exact percentage), 0 when `totalChecked = 0`; after
one fresh check and two repeats of the same hash it reads 66.67. -/
theorem duplicate_rate_amended (d : DuplicateDetector) :
    (d.total_checked = 0 → (get_statistics d).duplicate_rate = 0) ∧
    (0 < d.total_checked →
      |(get_statistics d).duplicate_rate -
        (d.duplicate_count : ℚ) / (d.total_checked : ℚ) * 100| ≤ 1/200) ∧
    (get_statistics (check_and_add (check_and_add (check_and_add
        (mkDetector false) "ab" none 5).2 "ab" none 5).2
        "ab" none 5).2).duplicate_rate = 6667/100 := by
  refine ⟨?_, ?_, scenario_rate⟩
  · intro h0
    unfold get_statistics
    simp [h0]
  · intro hpos
    unfold get_statistics
    simp only [hpos, if_pos]
    exact round2_close _

/-- Witness for the amended C7 at the one-fresh-plus-two-repeats state. -/
theorem duplicate_rate_amended_witness :
    ((2 : Nat) = 0 →
      (get_statistics ⟨{"ab"}, [], false, 1, 2⟩).duplicate_rate = 0) ∧
    ((0 : Nat) < 2 →
      |(get_statistics ⟨{"ab"}, [], false, 1, 2⟩).duplicate_rate -
        ((1 : Nat) : ℚ) / ((2 : Nat) : ℚ) * 100| ≤ 1/200) ∧
    (get_statistics (check_and_add (check_and_add (check_and_add
        (mkDetector false) "ab" none 5).2 "ab" none 5).2
        "ab" none 5).2).duplicate_rate = 6667/100 :=
  duplicate_rate_amended ⟨{"ab"}, [], false, 1, 2⟩

end MangaLib
